import Mathlib

/-
Verification of the membership state machine implemented by the channel
mutations of the Spectrum repository (src/iris/mutations/channel.js).

The mutation resolvers themselves are translated directly from
src/iris/mutations/channel.js.  The data-store gateway they call
(models/usersChannels, models/usersCommunities, models/channel,
models/community, models/thread) is not part of the provided sources, so
those operations are modelled from the specification (sections 3, 4.1 and 6):
each such definition carries a doc comment starting with
"Modelled from the spec:".
-/

namespace Spectrum

/-- Channel-membership status of a user in a channel
(spec section 3: status in \x7bNone, Member, Pending, Blocked\x7d). -/
inductive ChanStatus
  | none
  | member
  | pending
  | blocked
deriving DecidableEq, Repr

/-- Modelled from the spec: ChannelMembership record (User x Channel), spec
section 3: status, isOwner flag layered on Member, receiveNotifications. -/
structure ChannelMembership where
  status : ChanStatus
  isOwner : Bool
  receiveNotifications : Bool
deriving DecidableEq, Repr

/-- Modelled from the spec: CommunityMembership role (spec section 3:
role in \x7bOwner, Member, None\x7d). -/
inductive CommRole
  | owner
  | member
  | none
deriving DecidableEq, Repr

/-- Channel record (spec section 3): id, parent community, isPrivate,
membership in the default-channel set of its community, soft-delete flag. -/
structure Channel where
  id : Nat
  communityId : Nat
  isPrivate : Bool
  isDefault : Bool
  deletedAt : Bool
deriving DecidableEq, Repr

/-- Thread record (spec section 3): id, owning channel, soft-delete flag. -/
structure Thread where
  id : Nat
  channelId : Nat
  deletedAt : Bool
deriving DecidableEq, Repr

/-- The state held by the store gateway: the channel and thread records and
the two membership relations, as total maps keyed by user id. -/
structure DBState where
  channels : List Channel
  threads : List Thread
  chanMember : Nat → Nat → ChannelMembership
  commRole : Nat → Nat → CommRole

/-- The absent ChannelMembership relationship: no status, no ownership. -/
def emptyChannelMembership : ChannelMembership :=
  { status := ChanStatus.none, isOwner := false, receiveNotifications := false }

/-- Result of getUserPermissionsInChannel (spec section 4.1). -/
structure ChannelPermissions where
  isOwner : Bool
  isMember : Bool
  isPending : Bool
  isBlocked : Bool
  receiveNotifications : Bool
deriving DecidableEq, Repr

/-- Result of getUserPermissionsInCommunity (spec section 4.1). -/
structure CommunityPermissions where
  isOwner : Bool
  isMember : Bool
deriving DecidableEq, Repr

/-- Modelled from the spec: getUserPermissionsInChannel
(models/usersChannels is not in src/).  Spec section 4.1: the permission
resolver computes the effective flag set from the stored relationship
record; the four status flags report the stored status. -/
def getUserPermissionsInChannel (s : DBState) (channelId userId : Nat) :
    ChannelPermissions :=
  let m := s.chanMember userId channelId
  { isOwner := m.isOwner
    isMember := m.status == ChanStatus.member
    isPending := m.status == ChanStatus.pending
    isBlocked := m.status == ChanStatus.blocked
    receiveNotifications := m.receiveNotifications }

/-- Modelled from the spec: getUserPermissionsInCommunity
(models/usersCommunities is not in src/).  Spec section 3 makes the role a
single value in \x7bOwner, Member, None\x7d and counts Owner as a form of
CommunityMembership ("a CommunityMembership of Member/Owner"), so a user
holds membership, and isMember is true, exactly when the role is not None;
isOwner is true exactly for role Owner. -/
def getUserPermissionsInCommunity (s : DBState) (communityId userId : Nat) :
    CommunityPermissions :=
  match s.commRole userId communityId with
  | CommRole.owner => { isOwner := true, isMember := true }
  | CommRole.member => { isOwner := false, isMember := true }
  | CommRole.none => { isOwner := false, isMember := false }

/-- Point update of the channel-membership relation. -/
def updateChanMember (s : DBState) (userId channelId : Nat)
    (m : ChannelMembership) : DBState :=
  { s with chanMember := fun u c =>
      if u == userId && c == channelId then m else s.chanMember u c }

/-- Modelled from the spec: createMemberInChannel (spec section 6) creates a
Member relationship between the user and the channel. -/
def createMemberInChannel (s : DBState) (channelId userId : Nat) : DBState :=
  updateChanMember s userId channelId
    { status := ChanStatus.member, isOwner := false, receiveNotifications := true }

/-- Modelled from the spec: removeMemberInChannel (spec section 6) removes
the relationship between the user and the channel. -/
def removeMemberInChannel (s : DBState) (channelId userId : Nat) : DBState :=
  updateChanMember s userId channelId emptyChannelMembership

/-- Modelled from the spec: createOrUpdatePendingUserInChannel (spec
section 6) records a Pending request on a private channel. -/
def createOrUpdatePendingUserInChannel (s : DBState) (channelId userId : Nat) :
    DBState :=
  updateChanMember s userId channelId
    { status := ChanStatus.pending, isOwner := false, receiveNotifications := false }

/-- Modelled from the spec: blockUserInChannel (spec section 6) sets the
status of the user in the channel to Blocked. -/
def blockUserInChannel (s : DBState) (channelId userId : Nat) : DBState :=
  updateChanMember s userId channelId
    { status := ChanStatus.blocked, isOwner := false, receiveNotifications := false }

/-- Modelled from the spec: approvePendingUserInChannel (spec section 6)
turns the Pending status of the user in the channel into Member. -/
def approvePendingUserInChannel (s : DBState) (channelId userId : Nat) :
    DBState :=
  let m := s.chanMember userId channelId
  updateChanMember s userId channelId { m with status := ChanStatus.member }

/-- Modelled from the spec: unblockMemberInChannel (spec section 6);
section 4.3: Blocked goes to None via explicit unblock. -/
def unblockMemberInChannel (s : DBState) (channelId userId : Nat) : DBState :=
  updateChanMember s userId channelId emptyChannelMembership

/-- Modelled from the spec: removeMembersInChannel (spec section 6, bulk):
every membership relationship of the channel is removed. -/
def removeMembersInChannel (s : DBState) (channelId : Nat) : DBState :=
  { s with chanMember := fun u c =>
      if c == channelId then emptyChannelMembership else s.chanMember u c }

/-- Modelled from the spec: approvePendingUsersInChannel (spec section 6,
bulk): every user whose status in the channel is Pending becomes Member. -/
def approvePendingUsersInChannel (s : DBState) (channelId : Nat) : DBState :=
  { s with chanMember := fun u c =>
      let m := s.chanMember u c
      if c == channelId && m.status == ChanStatus.pending then
        { m with status := ChanStatus.member }
      else m }

/-- A channel id belongs to the default-channel set of a community (spec
glossary: a default channel is joined automatically on gaining community
membership). -/
def isDefaultChannelOf (s : DBState) (communityId channelId : Nat) : Bool :=
  s.channels.any fun ch =>
    ch.id == channelId && ch.communityId == communityId && ch.isDefault

/-- Modelled from the spec: createMemberInDefaultChannels (spec sections 6
and 4.3): create Member status for the user in every default channel of the
community. -/
def createMemberInDefaultChannels (s : DBState) (communityId userId : Nat) :
    DBState :=
  { s with chanMember := fun u c =>
      if u == userId && isDefaultChannelOf s communityId c then
        { status := ChanStatus.member, isOwner := false, receiveNotifications := true }
      else s.chanMember u c }

/-- Modelled from the spec: createMemberInCommunity (spec section 6) grants
the user CommunityMembership with role Member. -/
def createMemberInCommunity (s : DBState) (communityId userId : Nat) : DBState :=
  { s with commRole := fun u k =>
      if u == userId && k == communityId then CommRole.member else s.commRole u k }

/-- Modelled from the spec: removeMemberInCommunity (spec section 6) removes
the CommunityMembership of the user. -/
def removeMemberInCommunity (s : DBState) (communityId userId : Nat) : DBState :=
  { s with commRole := fun u k =>
      if u == userId && k == communityId then CommRole.none else s.commRole u k }

/-- Modelled from the spec: userIsMemberOfAnyChannelInCommunity (spec
sections 6 and 8): some channel of the community has status Member for the
user, the isOwner flag being irrelevant. -/
def userIsMemberOfAnyChannelInCommunity (s : DBState) (communityId userId : Nat) :
    Bool :=
  s.channels.any fun ch =>
    ch.communityId == communityId &&
      ((s.chanMember userId ch.id).status == ChanStatus.member)

/-- Modelled from the spec: the getChannels([id]) fetch followed by selecting
channels[0], as every mutation in channel.js does. -/
def findChannel (s : DBState) (channelId : Nat) : Option Channel :=
  s.channels.find? fun ch => ch.id == channelId

/-- Modelled from the spec: deleteChannel of the channel model (spec
section 3: deletion is a soft delete setting deletedAt). -/
def deleteChannelRecord (s : DBState) (channelId : Nat) : DBState :=
  { s with channels := s.channels.map fun ch =>
      if ch.id == channelId then { ch with deletedAt := true } else ch }

/-- Modelled from the spec: getThreadsByChannelToDelete (spec section 6):
the threads belonging to the channel. -/
def getThreadsByChannelToDelete (s : DBState) (channelId : Nat) : List Thread :=
  s.threads.filter fun t => t.channelId == channelId

/-- Modelled from the spec: deleteThread (spec section 3: threads are
soft-deleted). -/
def deleteThreadRecord (s : DBState) (threadId : Nat) : DBState :=
  { s with threads := s.threads.map fun t =>
      if t.id == threadId then { t with deletedAt := true } else t }

/-- The arguments of editChannel that matter to the state machine. -/
structure EditChannelInput where
  channelId : Nat
  isPrivate : Bool

/-- Modelled from the spec: editChannel of the channel model updates the
stored channel record with the input fields. -/
def editChannelRecord (s : DBState) (input : EditChannelInput) : DBState :=
  { s with channels := s.channels.map fun ch =>
      if ch.id == input.channelId then { ch with isPrivate := input.isPrivate }
      else ch }

/-- A mutation either succeeds or resolves to a typed user-facing error
(spec section 7). -/
inductive MutationError
  | signInToFollowChannel
  | signInToChangeChannel
  | noSuchChannel
  | noPermissionToDoThat
  | ownersCannotJoinOrLeave
  | noPermissionToChangeChannel
  | userNotPending
  | userNotBlocked
deriving DecidableEq, Repr

/-- Outcome of a mutation resolver. -/
inductive MutationResult
  | ok
  | err (e : MutationError)
deriving DecidableEq, Repr

/-- toggleChannelSubscription, translated from channel.js lines 273-421.
The concurrent reads of the channel record and of the permissions are pure
and are sequenced here; the community-permission read of the join branch
happens after createMemberInChannel, as in the source (lines 388-404). -/
def toggleChannelSubscription (s : DBState) (channelId : Nat)
    (user : Option Nat) : MutationResult × DBState :=
  match user with
  | Option.none => (MutationResult.err MutationError.signInToFollowChannel, s)
  | Option.some uid =>
    let perms := getUserPermissionsInChannel s channelId uid
    match findChannel s channelId with
    | Option.none => (MutationResult.err MutationError.noSuchChannel, s)
    | Option.some ch =>
      if ch.deletedAt then (MutationResult.err MutationError.noSuchChannel, s)
      else if perms.isBlocked then
        (MutationResult.err MutationError.noPermissionToDoThat, s)
      else if perms.isOwner then
        (MutationResult.err MutationError.ownersCannotJoinOrLeave, s)
      else if perms.isMember then
        let s1 := removeMemberInChannel s channelId uid
        if userIsMemberOfAnyChannelInCommunity s1 ch.communityId uid then
          (MutationResult.ok, s1)
        else
          (MutationResult.ok, removeMemberInCommunity s1 ch.communityId uid)
      else if perms.isPending then
        (MutationResult.ok, removeMemberInChannel s channelId uid)
      else if ch.isPrivate then
        (MutationResult.ok, createOrUpdatePendingUserInChannel s channelId uid)
      else
        let s1 := createMemberInChannel s channelId uid
        let commPerms := getUserPermissionsInCommunity s1 ch.communityId uid
        if commPerms.isMember then (MutationResult.ok, s1)
        else
          (MutationResult.ok,
            createMemberInDefaultChannels
              (createMemberInCommunity s1 ch.communityId uid)
              ch.communityId uid)

/-- The action field of the togglePendingUser input (channel.js line 58). -/
inductive PendingAction
  | block
  | approve
deriving DecidableEq, Repr

/-- Input of togglePendingUser (channel.js lines 55-59). -/
structure TogglePendingInput where
  channelId : Nat
  userId : Nat
  action : PendingAction

/-- togglePendingUser, translated from channel.js lines 458-577.  Note two
features of the source preserved here: the permission gate (line 518) rejects
unless the actor is channel owner AND community owner, and the approve
cascade (line 542) branches on the ACTING moderator community permissions
(currentUserCommunityPermissions.isMember), not on those of the user being
approved. -/
def togglePendingUser (s : DBState) (input : TogglePendingInput)
    (user : Option Nat) : MutationResult × DBState :=
  match user with
  | Option.none => (MutationResult.err MutationError.signInToChangeChannel, s)
  | Option.some uid =>
    let channelPermissions := getUserPermissionsInChannel s input.channelId uid
    let evaluatedUserPermissions :=
      getUserPermissionsInChannel s input.channelId input.userId
    match findChannel s input.channelId with
    | Option.none => (MutationResult.err MutationError.noSuchChannel, s)
    | Option.some ch =>
      if ch.deletedAt then (MutationResult.err MutationError.noSuchChannel, s)
      else
        let commPerms := getUserPermissionsInCommunity s ch.communityId uid
        if !evaluatedUserPermissions.isPending then
          (MutationResult.err MutationError.userNotPending, s)
        else if !channelPermissions.isOwner || !commPerms.isOwner then
          (MutationResult.err MutationError.noPermissionToChangeChannel, s)
        else
          match input.action with
          | PendingAction.block =>
            (MutationResult.ok, blockUserInChannel s input.channelId input.userId)
          | PendingAction.approve =>
            if commPerms.isMember then
              (MutationResult.ok,
                approvePendingUserInChannel s input.channelId input.userId)
            else
              (MutationResult.ok,
                createMemberInDefaultChannels
                  (createMemberInCommunity
                    (approvePendingUserInChannel s input.channelId input.userId)
                    ch.communityId input.userId)
                  ch.communityId input.userId)

/-- Input of unblockUser (channel.js lines 51-54). -/
structure UnblockInput where
  channelId : Nat
  userId : Nat

/-- In the source (channel.js line 624) getUserPermissionsInCommunity is
called without await, so currentUserCommunityPermissions is a pending
promise and the read of its isOwner field at line 637 yields undefined,
which is falsy in the disjunction. -/
def unblockCommunityOwnerFlag : Bool := false

/-- unblockUser, translated from channel.js lines 578-649. -/
def unblockUser (s : DBState) (input : UnblockInput) (user : Option Nat) :
    MutationResult × DBState :=
  match user with
  | Option.none => (MutationResult.err MutationError.signInToChangeChannel, s)
  | Option.some uid =>
    let currentUserChannelPermissions :=
      getUserPermissionsInChannel s input.channelId uid
    let evaluatedUserChannelPermissions :=
      getUserPermissionsInChannel s input.channelId input.userId
    match findChannel s input.channelId with
    | Option.none => (MutationResult.err MutationError.noSuchChannel, s)
    | Option.some ch =>
      if ch.deletedAt then (MutationResult.err MutationError.noSuchChannel, s)
      else if !evaluatedUserChannelPermissions.isBlocked then
        (MutationResult.err MutationError.userNotBlocked, s)
      else if currentUserChannelPermissions.isOwner || unblockCommunityOwnerFlag then
        (MutationResult.ok, unblockMemberInChannel s input.channelId input.userId)
      else
        (MutationResult.err MutationError.noPermissionToChangeChannel, s)

/-- editChannel, translated from channel.js lines 210-272.  The Promise.all
at lines 233-236 lists the permission read first and the channel fetch
second, but the destructuring binds the names in the opposite order: the
variable named channels receives the permissions OBJECT, so
channelToEvaluate = channels[0] (line 239) is always undefined and the check
at line 242 makes every authenticated call resolve to the does-not-exist
error.  The ownership gate, the private-to-public bulk approval
(lines 261-263) and the record edit (line 265) are unreachable dead code, so
the mutation never changes any state. -/
def editChannel (s : DBState) (input : EditChannelInput) (user : Option Nat) :
    MutationResult × DBState :=
  match user with
  | Option.none => (MutationResult.err MutationError.signInToChangeChannel, s)
  | Option.some _ => (MutationResult.err MutationError.noSuchChannel, s)

/-- Marking the threads of a list as deleted one by one, as the final
map over deleteThread in channel.js line 208 does. -/
def deleteThreads (s : DBState) (ts : List Thread) : DBState :=
  ts.foldl (fun acc t => deleteThreadRecord acc t.id) s

/-- deleteChannel mutation, translated from channel.js lines 132-209: soft
delete of the channel record, bulk removal of its memberships, then soft
deletion of each of its threads. -/
def deleteChannel (s : DBState) (channelId : Nat) (user : Option Nat) :
    MutationResult × DBState :=
  match user with
  | Option.none => (MutationResult.err MutationError.signInToChangeChannel, s)
  | Option.some uid =>
    let chanPerms := getUserPermissionsInChannel s channelId uid
    match findChannel s channelId with
    | Option.none => (MutationResult.err MutationError.noSuchChannel, s)
    | Option.some ch =>
      if ch.deletedAt then (MutationResult.err MutationError.noSuchChannel, s)
      else
        let commPerms := getUserPermissionsInCommunity s ch.communityId uid
        if !chanPerms.isOwner && !commPerms.isOwner then
          (MutationResult.err MutationError.noPermissionToChangeChannel, s)
        else
          let threadsToDelete := getThreadsByChannelToDelete s channelId
          let s1 := deleteChannelRecord s channelId
          let s2 := removeMembersInChannel s1 channelId
          (MutationResult.ok, deleteThreads s2 threadsToDelete)

/-- Spec-side predicate (spec section 8): the user has status Member in some
channel of the community other than the given one, the isOwner flag being
irrelevant.  It is stated over the pre-leave state; the leave theorem proves
that the fresh-state check performed by the source coincides with it. -/
def specMemberInAnotherChannel (s : DBState) (userId communityId chanId : Nat) :
    Bool :=
  s.channels.any fun c =>
    c.communityId == communityId && !(c.id == chanId) &&
      ((s.chanMember userId c.id).status == ChanStatus.member)

/-- A concrete store state exercising the main membership scenarios:
community 0 holds public channel 1, default channel 2 and private channel 3;
community 1 holds public channel 4 and default channel 5.  User 10 owns
channel 1 and community 0, user 20 is a plain member of channel 1 and of
community 0, user 30 is pending on channel 3, user 40 is blocked in
channel 1, user 50 has no relationship at all. -/
def sBase : DBState :=
  { channels :=
      [⟨1, 0, false, false, false⟩, ⟨2, 0, false, true, false⟩,
       ⟨3, 0, true, false, false⟩, ⟨4, 1, false, false, false⟩,
       ⟨5, 1, false, true, false⟩]
    threads := [⟨100, 1, false⟩, ⟨101, 1, false⟩, ⟨102, 4, false⟩]
    chanMember := fun u c =>
      if u == 10 && c == 1 then ⟨ChanStatus.member, true, true⟩
      else if u == 20 && c == 1 then ⟨ChanStatus.member, false, true⟩
      else if u == 30 && c == 3 then ⟨ChanStatus.pending, false, false⟩
      else if u == 40 && c == 1 then ⟨ChanStatus.blocked, false, false⟩
      else emptyChannelMembership
    commRole := fun u k =>
      if u == 10 && k == 0 then CommRole.owner
      else if u == 20 && k == 0 then CommRole.member
      else CommRole.none }

/-- Store state for the approve scenario: private channel 1 and default
channel 2 in community 0; user 10 owns channel 1 and community 0; user 20 is
pending on channel 1 and holds no CommunityMembership. -/
def sApprove : DBState :=
  { channels := [⟨1, 0, true, false, false⟩, ⟨2, 0, false, true, false⟩]
    threads := []
    chanMember := fun u c =>
      if u == 10 && c == 1 then ⟨ChanStatus.member, true, true⟩
      else if u == 20 && c == 1 then ⟨ChanStatus.pending, false, false⟩
      else emptyChannelMembership
    commRole := fun u k =>
      if u == 10 && k == 0 then CommRole.owner else CommRole.none }

/-- Store state for the unblock scenario: public channel 1 in community 0;
user 10 is a plain member of channel 1 (not its owner) but owns community 0;
user 20 is blocked in channel 1. -/
def sUnblock : DBState :=
  { channels := [⟨1, 0, false, false, false⟩]
    threads := []
    chanMember := fun u c =>
      if u == 10 && c == 1 then ⟨ChanStatus.member, false, true⟩
      else if u == 20 && c == 1 then ⟨ChanStatus.blocked, false, false⟩
      else emptyChannelMembership
    commRole := fun u k =>
      if u == 10 && k == 0 then CommRole.owner else CommRole.none }

/-- Store state for the block scenario: private channel 1 in community 0;
user 10 owns channel 1 but is only a plain member of community 0; user 20 is
pending on channel 1. -/
def sBlock : DBState :=
  { channels := [⟨1, 0, true, false, false⟩]
    threads := []
    chanMember := fun u c =>
      if u == 10 && c == 1 then ⟨ChanStatus.member, true, true⟩
      else if u == 20 && c == 1 then ⟨ChanStatus.pending, false, false⟩
      else emptyChannelMembership
    commRole := fun u k =>
      if u == 10 && k == 0 then CommRole.member else CommRole.none }

@[simp] lemma updateChanMember_channels (s : DBState) (u c : Nat)
    (m : ChannelMembership) : (updateChanMember s u c m).channels = s.channels :=
  rfl

@[simp] lemma updateChanMember_threads (s : DBState) (u c : Nat)
    (m : ChannelMembership) : (updateChanMember s u c m).threads = s.threads :=
  rfl

@[simp] lemma updateChanMember_commRole (s : DBState) (u c : Nat)
    (m : ChannelMembership) : (updateChanMember s u c m).commRole = s.commRole :=
  rfl

lemma updateChanMember_chanMember (s : DBState) (u c : Nat)
    (m : ChannelMembership) (u2 c2 : Nat) :
    (updateChanMember s u c m).chanMember u2 c2 =
      if u2 == u && c2 == c then m else s.chanMember u2 c2 :=
  rfl

@[simp] lemma createMemberInCommunity_channels (s : DBState) (k u : Nat) :
    (createMemberInCommunity s k u).channels = s.channels := rfl

@[simp] lemma createMemberInCommunity_chanMember (s : DBState) (k u : Nat) :
    (createMemberInCommunity s k u).chanMember = s.chanMember := rfl

lemma createMemberInCommunity_commRole (s : DBState) (k u : Nat) (u2 k2 : Nat) :
    (createMemberInCommunity s k u).commRole u2 k2 =
      if u2 == u && k2 == k then CommRole.member else s.commRole u2 k2 :=
  rfl

@[simp] lemma removeMemberInCommunity_channels (s : DBState) (k u : Nat) :
    (removeMemberInCommunity s k u).channels = s.channels := rfl

@[simp] lemma removeMemberInCommunity_chanMember (s : DBState) (k u : Nat) :
    (removeMemberInCommunity s k u).chanMember = s.chanMember := rfl

lemma removeMemberInCommunity_commRole (s : DBState) (k u : Nat) (u2 k2 : Nat) :
    (removeMemberInCommunity s k u).commRole u2 k2 =
      if u2 == u && k2 == k then CommRole.none else s.commRole u2 k2 :=
  rfl

@[simp] lemma createMemberInDefaultChannels_channels (s : DBState) (k u : Nat) :
    (createMemberInDefaultChannels s k u).channels = s.channels := rfl

@[simp] lemma createMemberInDefaultChannels_commRole (s : DBState) (k u : Nat) :
    (createMemberInDefaultChannels s k u).commRole = s.commRole := rfl

lemma createMemberInDefaultChannels_chanMember (s : DBState) (k u : Nat)
    (u2 c2 : Nat) :
    (createMemberInDefaultChannels s k u).chanMember u2 c2 =
      if u2 == u && isDefaultChannelOf s k c2 then
        { status := ChanStatus.member, isOwner := false,
          receiveNotifications := true }
      else s.chanMember u2 c2 :=
  rfl

@[simp] lemma removeMembersInChannel_channels (s : DBState) (c : Nat) :
    (removeMembersInChannel s c).channels = s.channels := rfl

@[simp] lemma removeMembersInChannel_threads (s : DBState) (c : Nat) :
    (removeMembersInChannel s c).threads = s.threads := rfl

@[simp] lemma removeMembersInChannel_commRole (s : DBState) (c : Nat) :
    (removeMembersInChannel s c).commRole = s.commRole := rfl

lemma removeMembersInChannel_chanMember (s : DBState) (c : Nat) (u2 c2 : Nat) :
    (removeMembersInChannel s c).chanMember u2 c2 =
      if c2 == c then emptyChannelMembership else s.chanMember u2 c2 :=
  rfl

@[simp] lemma approvePendingUsersInChannel_channels (s : DBState) (c : Nat) :
    (approvePendingUsersInChannel s c).channels = s.channels := rfl

@[simp] lemma approvePendingUsersInChannel_commRole (s : DBState) (c : Nat) :
    (approvePendingUsersInChannel s c).commRole = s.commRole := rfl

@[simp] lemma deleteChannelRecord_threads (s : DBState) (c : Nat) :
    (deleteChannelRecord s c).threads = s.threads := rfl

@[simp] lemma deleteChannelRecord_chanMember (s : DBState) (c : Nat) :
    (deleteChannelRecord s c).chanMember = s.chanMember := rfl

@[simp] lemma deleteChannelRecord_commRole (s : DBState) (c : Nat) :
    (deleteChannelRecord s c).commRole = s.commRole := rfl

@[simp] lemma deleteThreadRecord_channels (s : DBState) (t : Nat) :
    (deleteThreadRecord s t).channels = s.channels := rfl

@[simp] lemma deleteThreadRecord_chanMember (s : DBState) (t : Nat) :
    (deleteThreadRecord s t).chanMember = s.chanMember := rfl

@[simp] lemma deleteThreadRecord_commRole (s : DBState) (t : Nat) :
    (deleteThreadRecord s t).commRole = s.commRole := rfl

@[simp] lemma editChannelRecord_threads (s : DBState) (i : EditChannelInput) :
    (editChannelRecord s i).threads = s.threads := rfl

@[simp] lemma editChannelRecord_chanMember (s : DBState) (i : EditChannelInput) :
    (editChannelRecord s i).chanMember = s.chanMember := rfl

@[simp] lemma editChannelRecord_commRole (s : DBState) (i : EditChannelInput) :
    (editChannelRecord s i).commRole = s.commRole := rfl

lemma deleteThreads_channels (ts : List Thread) (s : DBState) :
    (deleteThreads s ts).channels = s.channels := by
  induction ts generalizing s with
  | nil => rfl
  | cons t ts ih => simpa [deleteThreads] using ih (deleteThreadRecord s t.id)

lemma deleteThreads_chanMember (ts : List Thread) (s : DBState) :
    (deleteThreads s ts).chanMember = s.chanMember := by
  induction ts generalizing s with
  | nil => rfl
  | cons t ts ih => simpa [deleteThreads] using ih (deleteThreadRecord s t.id)

lemma deleteThreads_marks (cid : Nat) (ts : List Thread) (s : DBState)
    (h : ∀ t ∈ s.threads, t.channelId = cid →
      t.deletedAt = true ∨ ∃ t2 ∈ ts, t2.id = t.id) :
    ∀ t ∈ (deleteThreads s ts).threads, t.channelId = cid → t.deletedAt = true := by
  induction ts generalizing s with
  | nil =>
    intro t ht hc
    exact (h t ht hc).resolve_right (by simp)
  | cons t2 ts ih =>
    have hstep : deleteThreads s (t2 :: ts) =
        deleteThreads (deleteThreadRecord s t2.id) ts := rfl
    rw [hstep]
    apply ih
    intro t ht hc
    rcases List.mem_map.mp ht with ⟨t0, ht0, hmap⟩
    by_cases hid : t0.id = t2.id
    · left
      rw [← hmap]
      simp [hid]
    · have ht' : t = t0 := by
        rw [← hmap]
        simp [hid]
      subst ht'
      rcases h t ht0 hc with hdone | ⟨t3, ht3, hid3⟩
      · exact Or.inl hdone
      · rcases List.mem_cons.mp ht3 with h23 | h3
        · exact absurd (h23 ▸ hid3).symm hid
        · exact Or.inr ⟨t3, h3, hid3⟩

/-- Claim C6: a user whose channel permissions show isBlocked for an
existing, non-deleted channel gets a domain error from
toggleChannelSubscription and the store state is completely unchanged. -/
theorem toggleChannelSubscription_blocked_rejected
    (s : DBState) (uid cid : Nat) (ch : Channel)
    (hfind : findChannel s cid = Option.some ch)
    (hdel : ch.deletedAt = false)
    (hblk : (s.chanMember uid cid).status = ChanStatus.blocked) :
    (toggleChannelSubscription s cid (Option.some uid)).1 =
      MutationResult.err MutationError.noPermissionToDoThat ∧
    (toggleChannelSubscription s cid (Option.some uid)).2 = s := by
  simp [toggleChannelSubscription, hfind, hdel, getUserPermissionsInChannel,
    hblk]

/-- Claim C6 witness: the blocked user 40 of the concrete state sBase is
rejected by toggleChannelSubscription on channel 1 with no state change. -/
theorem toggleChannelSubscription_blocked_rejected_witness :
    (toggleChannelSubscription sBase 1 (Option.some 40)).1 =
      MutationResult.err MutationError.noPermissionToDoThat ∧
    (toggleChannelSubscription sBase 1 (Option.some 40)).2 = sBase :=
  toggleChannelSubscription_blocked_rejected sBase 40 1
    ⟨1, 0, false, false, false⟩ (by decide) rfl rfl

/-- Claim C7: togglePendingUser (either action) on a target whose channel
status is not Pending fails with the not-pending error and changes
nothing. -/
theorem togglePendingUser_not_pending_rejected
    (s : DBState) (aid tid cid : Nat) (ch : Channel) (act : PendingAction)
    (hfind : findChannel s cid = Option.some ch)
    (hdel : ch.deletedAt = false)
    (hnp : (s.chanMember tid cid).status ≠ ChanStatus.pending) :
    (togglePendingUser s ⟨cid, tid, act⟩ (Option.some aid)).1 =
      MutationResult.err MutationError.userNotPending ∧
    (togglePendingUser s ⟨cid, tid, act⟩ (Option.some aid)).2 = s := by
  simp [togglePendingUser, hfind, hdel, getUserPermissionsInChannel, hnp]

/-- Claim C7 witness: a second approval of the already approved user 20 on
channel 1 of sBase fails with the not-pending error and changes nothing. -/
theorem togglePendingUser_not_pending_rejected_witness :
    (togglePendingUser sBase ⟨1, 20, PendingAction.approve⟩ (Option.some 10)).1 =
      MutationResult.err MutationError.userNotPending ∧
    (togglePendingUser sBase ⟨1, 20, PendingAction.approve⟩ (Option.some 10)).2 =
      sBase :=
  togglePendingUser_not_pending_rejected sBase 10 20 1
    ⟨1, 0, false, false, false⟩ PendingAction.approve (by decide) rfl
    (by decide)

/-- Claim C10: in togglePendingUser and in unblockUser the target-state
validation runs before the ownership check, so on an existing channel any
authenticated actor, owner or not, receives the state-describing error when
the target is not Pending (respectively not Blocked). -/
theorem target_state_check_precedes_ownership_check
    (s : DBState) (aid tid cid : Nat) (ch : Channel)
    (hfind : findChannel s cid = Option.some ch)
    (hdel : ch.deletedAt = false) :
    ((s.chanMember tid cid).status ≠ ChanStatus.pending →
      ∀ act : PendingAction,
        (togglePendingUser s ⟨cid, tid, act⟩ (Option.some aid)).1 =
          MutationResult.err MutationError.userNotPending) ∧
    ((s.chanMember tid cid).status ≠ ChanStatus.blocked →
      (unblockUser s ⟨cid, tid⟩ (Option.some aid)).1 =
        MutationResult.err MutationError.userNotBlocked) := by
  constructor
  · intro hnp act
    simp [togglePendingUser, hfind, hdel, getUserPermissionsInChannel, hnp]
  · intro hnb
    simp [unblockUser, hfind, hdel, getUserPermissionsInChannel, hnb]

/-- Claim C10 witness: user 50 of sBase holds no ownership anywhere, yet
learns from the errors that user 20 is neither pending nor blocked in
channel 1. -/
theorem target_state_check_precedes_ownership_check_witness :
    (togglePendingUser sBase ⟨1, 20, PendingAction.block⟩ (Option.some 50)).1 =
      MutationResult.err MutationError.userNotPending ∧
    (unblockUser sBase ⟨1, 20⟩ (Option.some 50)).1 =
      MutationResult.err MutationError.userNotBlocked := by
  have h := target_state_check_precedes_ownership_check sBase 50 20 1
    ⟨1, 0, false, false, false⟩ (by decide) rfl
  exact ⟨h.1 (by decide) PendingAction.block, h.2 (by decide)⟩

lemma fresh_last_channel_check (s : DBState) (uid cid k : Nat) :
    userIsMemberOfAnyChannelInCommunity (removeMemberInChannel s cid uid) k uid =
      specMemberInAnotherChannel s uid k cid := by
  unfold userIsMemberOfAnyChannelInCommunity specMemberInAnotherChannel
    removeMemberInChannel
  rw [updateChanMember_channels]
  congr 1
  funext c
  rw [updateChanMember_chanMember]
  by_cases hc : c.id = cid
  · simp [hc, emptyChannelMembership]
  · have hcc : (c.id == cid) = false := by simp [hc]
    simp [hcc]

/-- Claim C2: leaving a channel in which the user is a plain Member sets the
status to None and removes the CommunityMembership of the parent community
exactly when, in the committed post-leave state, the user holds Member
status in no other channel of that community; the condition is evaluated on
the fresh state after the removal, which the lemma fresh_last_channel_check
identifies with the spec-side predicate over the pre-state. -/
theorem toggleChannelSubscription_leave_correct
    (s : DBState) (uid cid : Nat) (ch : Channel)
    (hfind : findChannel s cid = Option.some ch)
    (hdel : ch.deletedAt = false)
    (hmem : (s.chanMember uid cid).status = ChanStatus.member)
    (hown : (s.chanMember uid cid).isOwner = false) :
    (toggleChannelSubscription s cid (Option.some uid)).1 = MutationResult.ok ∧
    ((toggleChannelSubscription s cid (Option.some uid)).2.chanMember uid cid).status =
      ChanStatus.none ∧
    (toggleChannelSubscription s cid (Option.some uid)).2.commRole uid ch.communityId =
      (if specMemberInAnotherChannel s uid ch.communityId cid then
        s.commRole uid ch.communityId
      else CommRole.none) := by
  simp only [toggleChannelSubscription, hfind, getUserPermissionsInChannel,
    hdel, hmem, hown, fresh_last_channel_check]
  by_cases hb : specMemberInAnotherChannel s uid ch.communityId cid
  · simp [hb, removeMemberInChannel, updateChanMember, emptyChannelMembership]
  · simp [hb, removeMemberInChannel, removeMemberInCommunity, updateChanMember,
      emptyChannelMembership]

/-- Claim C2 witness: user 20, a plain member of channel 1 only, leaves it;
the status becomes None and, channel 1 having been the last channel of user
20 in community 0, the CommunityMembership is removed as well. -/
theorem toggleChannelSubscription_leave_correct_witness :
    (toggleChannelSubscription sBase 1 (Option.some 20)).1 = MutationResult.ok ∧
    ((toggleChannelSubscription sBase 1 (Option.some 20)).2.chanMember 20 1).status =
      ChanStatus.none ∧
    (toggleChannelSubscription sBase 1 (Option.some 20)).2.commRole 20 0 =
      CommRole.none := by
  have h := toggleChannelSubscription_leave_correct sBase 20 1
    ⟨1, 0, false, false, false⟩ (by decide) rfl rfl rfl
  refine ⟨h.1, h.2.1, ?_⟩
  have hpred : specMemberInAnotherChannel sBase 20 0 1 = false := by decide
  have h2 := h.2.2
  rw [hpred] at h2
  simpa using h2

/-- Claim C5: joining a public, non-deleted channel with status None, not
blocked and with no prior CommunityMembership in the parent community makes
the user a Member of the channel, a Member of the parent community and a
Member of every default channel of that community. -/
theorem toggleChannelSubscription_join_public_first_time
    (s : DBState) (uid cid : Nat) (ch : Channel)
    (hfind : findChannel s cid = Option.some ch)
    (hdel : ch.deletedAt = false)
    (hpub : ch.isPrivate = false)
    (hstat : (s.chanMember uid cid).status = ChanStatus.none)
    (hown : (s.chanMember uid cid).isOwner = false)
    (hcomm : s.commRole uid ch.communityId = CommRole.none) :
    (toggleChannelSubscription s cid (Option.some uid)).1 = MutationResult.ok ∧
    ((toggleChannelSubscription s cid (Option.some uid)).2.chanMember uid cid).status =
      ChanStatus.member ∧
    (toggleChannelSubscription s cid (Option.some uid)).2.commRole uid ch.communityId =
      CommRole.member ∧
    ∀ c ∈ s.channels, c.communityId = ch.communityId → c.isDefault = true →
      ((toggleChannelSubscription s cid (Option.some uid)).2.chanMember uid c.id).status =
        ChanStatus.member := by
  have hrun : toggleChannelSubscription s cid (Option.some uid) =
      (MutationResult.ok,
        createMemberInDefaultChannels
          (createMemberInCommunity (createMemberInChannel s cid uid)
            ch.communityId uid)
          ch.communityId uid) := by
    simp only [toggleChannelSubscription, hfind, hdel, hpub,
      getUserPermissionsInChannel, hstat, hown, getUserPermissionsInCommunity,
      createMemberInChannel, updateChanMember_commRole, hcomm]
    simp [createMemberInChannel]
  rw [hrun]
  refine ⟨rfl, ?_, ?_, ?_⟩
  · rw [createMemberInDefaultChannels_chanMember]
    by_cases hd : isDefaultChannelOf
        (createMemberInCommunity (createMemberInChannel s cid uid)
          ch.communityId uid) ch.communityId cid
    · simp [hd]
    · simp [hd, createMemberInChannel, updateChanMember_chanMember]
  · simp [createMemberInDefaultChannels_commRole,
      createMemberInCommunity_commRole]
  · intro c hcmem hck hcdef
    rw [createMemberInDefaultChannels_chanMember]
    have hd : isDefaultChannelOf
        (createMemberInCommunity (createMemberInChannel s cid uid)
          ch.communityId uid) ch.communityId c.id = true := by
      unfold isDefaultChannelOf
      rw [createMemberInCommunity_channels, createMemberInChannel,
        updateChanMember_channels]
      exact List.any_eq_true.mpr ⟨c, hcmem, by simp [hck, hcdef]⟩
    simp [hd]

/-- Claim C5 witness: user 50 of sBase, with no relationship anywhere, joins
the public channel 4 of community 1 and ends up a Member of channel 4, of
community 1 and of the default channel 5 of community 1. -/
theorem toggleChannelSubscription_join_public_first_time_witness :
    (toggleChannelSubscription sBase 4 (Option.some 50)).1 = MutationResult.ok ∧
    ((toggleChannelSubscription sBase 4 (Option.some 50)).2.chanMember 50 4).status =
      ChanStatus.member ∧
    (toggleChannelSubscription sBase 4 (Option.some 50)).2.commRole 50 1 =
      CommRole.member ∧
    ((toggleChannelSubscription sBase 4 (Option.some 50)).2.chanMember 50 5).status =
      ChanStatus.member := by
  have h := toggleChannelSubscription_join_public_first_time sBase 50 4
    ⟨4, 1, false, false, false⟩ (by decide) rfl rfl rfl rfl rfl
  exact ⟨h.1, h.2.1, h.2.2.1,
    h.2.2.2 ⟨5, 1, false, true, false⟩ (by decide) rfl rfl⟩

/-- Claim C8, behaviour of the code at the failing input: in sBase the
actor 10 owns community 0, channel 3 is private and not deleted, and user 30
is Pending on channel 3, so the claim says the edit to isPrivate = false
succeeds and makes user 30 a Member.  Because the Promise.all destructuring
of channel.js lines 233-236 is swapped, channels[0] is undefined and the
mutation instead resolves to the does-not-exist error, leaves the whole
state unchanged and leaves user 30 Pending: the bulk approval is
unreachable. -/
theorem editChannel_never_edits :
    (editChannel sBase ⟨3, false⟩ (Option.some 10)).1 =
      MutationResult.err MutationError.noSuchChannel ∧
    (editChannel sBase ⟨3, false⟩ (Option.some 10)).2 = sBase ∧
    ((editChannel sBase ⟨3, false⟩ (Option.some 10)).2.chanMember 30 3).status =
      ChanStatus.pending :=
  ⟨rfl, rfl, rfl⟩

/-- Claim C9: an authorized deleteChannel on an existing, non-deleted
channel soft-deletes the channel record, soft-deletes every thread of the
channel (also when there are none), and removes every channel membership of
the channel, leaving no active membership. -/
theorem deleteChannel_cascade
    (s : DBState) (uid cid : Nat) (ch : Channel)
    (hfind : findChannel s cid = Option.some ch)
    (hdel : ch.deletedAt = false)
    (hauth : (s.chanMember uid cid).isOwner = true ∨
      s.commRole uid ch.communityId = CommRole.owner) :
    (deleteChannel s cid (Option.some uid)).1 = MutationResult.ok ∧
    (∀ c ∈ (deleteChannel s cid (Option.some uid)).2.channels,
      c.id = cid → c.deletedAt = true) ∧
    (∀ t ∈ (deleteChannel s cid (Option.some uid)).2.threads,
      t.channelId = cid → t.deletedAt = true) ∧
    (∀ u : Nat,
      ((deleteChannel s cid (Option.some uid)).2.chanMember u cid).status =
        ChanStatus.none) := by
  have hgate : ¬(!(getUserPermissionsInChannel s cid uid).isOwner &&
      !(getUserPermissionsInCommunity s ch.communityId uid).isOwner) = true := by
    rcases hauth with hchan | hcomm
    · simp [getUserPermissionsInChannel, hchan]
    · simp [getUserPermissionsInCommunity, hcomm]
  have hrun : deleteChannel s cid (Option.some uid) =
      (MutationResult.ok,
        deleteThreads
          (removeMembersInChannel (deleteChannelRecord s cid) cid)
          (getThreadsByChannelToDelete s cid)) := by
    simp only [deleteChannel, hfind, hdel]
    simp [hgate]
  rw [hrun]
  refine ⟨rfl, ?_, ?_, ?_⟩
  · intro c hc hcid
    rw [deleteThreads_channels, removeMembersInChannel_channels] at hc
    unfold deleteChannelRecord at hc
    rcases List.mem_map.mp hc with ⟨c0, hc0, hmap⟩
    by_cases hid : c0.id = cid
    · rw [← hmap]
      simp [hid]
    · rw [← hmap] at hcid
      simp [hid] at hcid
  · apply deleteThreads_marks
    intro t ht hc
    right
    refine ⟨t, ?_, rfl⟩
    unfold getThreadsByChannelToDelete
    rw [removeMembersInChannel_threads, deleteChannelRecord_threads] at ht
    exact List.mem_filter.mpr ⟨ht, by simp [hc]⟩
  · intro u
    rw [deleteThreads_chanMember, removeMembersInChannel_chanMember]
    simp [emptyChannelMembership]

/-- Claim C9 witness: channel owner 10 deletes channel 1 of sBase, which
holds two threads; membership of user 20 in channel 1 is gone and both
threads of channel 1 are soft-deleted while the thread of channel 4 is
not. -/
theorem deleteChannel_cascade_witness :
    (deleteChannel sBase 1 (Option.some 10)).1 = MutationResult.ok ∧
    ((deleteChannel sBase 1 (Option.some 10)).2.chanMember 20 1).status =
      ChanStatus.none ∧
    ((⟨100, 1, true⟩ : Thread) ∈ (deleteChannel sBase 1 (Option.some 10)).2.threads →
      (⟨100, 1, true⟩ : Thread).deletedAt = true) := by
  have h := deleteChannel_cascade sBase 10 1 ⟨1, 0, false, false, false⟩
    (by decide) rfl (Or.inl rfl)
  exact ⟨h.1, h.2.2.2 20, fun hm => h.2.2.1 ⟨100, 1, true⟩ hm rfl⟩

/-- Claim C1, behaviour of the code at the failing input: in sApprove the
actor 10 is channel owner and community owner, the target 20 is Pending on
channel 1 and has no CommunityMembership in community 0.  The approve
succeeds and makes 20 a channel Member, but because the cascade condition of
channel.js line 542 reads the ACTING moderator community permissions, whose
isMember is necessarily true at this point, the community-membership grant
and the default-channel auto-join never happen: 20 is left with no
CommunityMembership in community 0 and no membership in the default
channel 2, contrary to the claim. -/
theorem togglePendingUser_approve_skips_community_grant :
    (togglePendingUser sApprove ⟨1, 20, PendingAction.approve⟩ (Option.some 10)).1 =
      MutationResult.ok ∧
    ((togglePendingUser sApprove ⟨1, 20, PendingAction.approve⟩
        (Option.some 10)).2.chanMember 20 1).status = ChanStatus.member ∧
    (togglePendingUser sApprove ⟨1, 20, PendingAction.approve⟩
        (Option.some 10)).2.commRole 20 0 = CommRole.none ∧
    ((togglePendingUser sApprove ⟨1, 20, PendingAction.approve⟩
        (Option.some 10)).2.chanMember 20 2).status = ChanStatus.none := by
  decide

/-- Claim C3, behaviour of the code at the failing input: in sUnblock the
actor 10 owns community 0 but not channel 1, and the target 20 is Blocked in
channel 1.  Because the community-permission fetch of channel.js line 624 is
not awaited, its isOwner read is falsy, so the command is rejected with the
permission error and the target stays Blocked, contrary to the claim that
community ownership suffices. -/
theorem unblockUser_community_owner_rejected :
    (unblockUser sUnblock ⟨1, 20⟩ (Option.some 10)).1 =
      MutationResult.err MutationError.noPermissionToChangeChannel ∧
    ((unblockUser sUnblock ⟨1, 20⟩ (Option.some 10)).2.chanMember 20 1).status =
      ChanStatus.blocked := by
  decide

/-- Claim C4, behaviour of the code at the failing input: in sBlock the
actor 10 owns channel 1 but holds only Member role in community 0, and the
target 20 is Pending on channel 1.  The gate of channel.js line 518 rejects
unless the actor is channel owner AND community owner, so the block action
fails with the permission error and the target stays Pending, contrary to
the claim that a single ownership suffices. -/
theorem togglePendingUser_block_single_owner_rejected :
    (togglePendingUser sBlock ⟨1, 20, PendingAction.block⟩ (Option.some 10)).1 =
      MutationResult.err MutationError.noPermissionToChangeChannel ∧
    ((togglePendingUser sBlock ⟨1, 20, PendingAction.block⟩
        (Option.some 10)).2.chanMember 20 1).status = ChanStatus.pending := by
  decide

end Spectrum
